import Mathlib

/-!
# Verification of the gritcalc scoring function

A shallow embedding of `score_endurance_event` from `app.py` of the
gritcalc repository, together with theorems settling the specification's
claims about it.

The Python source computes with IEEE doubles; the embedding uses exact
rationals (`ℚ`), which is the arithmetic the specification reasons in
("an exact multiple of 0.01 in exact arithmetic").  Python's `round(x, 2)`
is modelled by `roundTo2` below using Mathlib's `round` (nearest integer);
none of the claims' inputs sit on a rounding tie, so the tie-breaking
convention is immaterial here.
-/

namespace GritCalc

/-- The running event types tested on line 19 of `app.py`. -/
def runTypes : List String := ["run", "trail_run"]

/-- The cycling event types tested on line 20 of `app.py`. -/
def cycleTypes : List String := ["road_cycle", "gravel", "mtb"]

/-- Python's `round(x, 2)`: round to 2 decimal places. -/
def roundTo2 (x : ℚ) : ℚ := (round (x * 100) : ℤ) / 100

/-- The temperature adjustment, lines 42–48 of `app.py`. -/
def temp_adjustment (temperature_c : ℚ) : ℚ :=
  if temperature_c ≤ 10 then (temperature_c - 10) * 0.05
  else if temperature_c ≤ 20 then 0
  else (temperature_c - 20) * 0.1

/-- The altitude adjustment, lines 50–54 of `app.py`. -/
def altitude_adjustment (avg_altitude_m : ℚ) : ℚ :=
  if avg_altitude_m < 500 then (avg_altitude_m / 1000) * 0.8 else 0

/-- The early-return condition of lines 19–21 of `app.py`
(`MIN_RUN_DISTANCE = 21.2`, `MIN_CYCLE_DISTANCE = 70.0`). -/
def min_distance_gate (distance_km : ℚ) (event_type : String) : Prop :=
  (event_type ∈ runTypes ∧ distance_km < 21.2) ∨
  (event_type ∈ cycleTypes ∧ distance_km < 70.0)

instance (distance_km : ℚ) (event_type : String) :
    Decidable (min_distance_gate distance_km event_type) :=
  inferInstanceAs (Decidable ((event_type ∈ runTypes ∧ distance_km < 21.2) ∨
    (event_type ∈ cycleTypes ∧ distance_km < 70.0)))

/-- `score_endurance_event`, lines 5–61 of `app.py`.  Default arguments
mirror the Python signature. -/
def score_endurance_event (distance_km : ℚ) (elevation_meters : ℚ)
    (event_type : String := "run") (roughness : ℚ := 0.0)
    (draft_percentage : ℚ := 0.0) (temperature_c : ℚ := 20.0)
    (avg_altitude_m : ℚ := 0.0) : ℚ :=
  if min_distance_gate distance_km event_type then 0.0
  else
    let DISTANCE_FACTOR : ℚ := 3.0
    let ELEVATION_FACTOR : ℚ := 4.0
    let terrain_factor := 1 + roughness
    let DRAFT_FACTOR := 1.0 - (draft_percentage / 100 * 0.3)
    let NORMALIZATION_FACTOR : ℚ := 2.0 / 42.2
    let base_score :=
      if event_type ∈ runTypes then
        distance_km * NORMALIZATION_FACTOR + elevation_meters / 400
      else
        (distance_km / DISTANCE_FACTOR) * NORMALIZATION_FACTOR +
          (elevation_meters / ELEVATION_FACTOR) / 400
    let terrain_adjusted := base_score * terrain_factor
    let draft_adjusted := terrain_adjusted * DRAFT_FACTOR
    let final_score :=
      draft_adjusted + temp_adjustment temperature_c +
        altitude_adjustment avg_altitude_m
    roundTo2 final_score

/-- The five event types offered by the UI selectbox, line 80 of `app.py`. -/
def eventTypes : List String := ["run", "trail_run", "road_cycle", "gravel", "mtb"]

/-! ## Helper lemmas -/

lemma mem_runTypes_not_cycle {et : String} (h : et ∈ runTypes) :
    et ∉ cycleTypes := by
  fin_cases h <;> decide

lemma mem_cycleTypes_not_run {et : String} (h : et ∈ cycleTypes) :
    et ∉ runTypes := by
  fin_cases h <;> decide

lemma score_gate_eq (d e r dr t a : ℚ) (et : String)
    (h : min_distance_gate d et) :
    score_endurance_event d e et r dr t a = 0.0 := by
  simp only [score_endurance_event, if_pos h]

lemma score_run_eq (d e r dr t a : ℚ) (et : String)
    (h₁ : et ∈ runTypes) (h₂ : 21.2 ≤ d) :
    score_endurance_event d e et r dr t a =
      roundTo2 ((d * (2.0 / 42.2) + e / 400) * (1 + r) * (1.0 - (dr / 100 * 0.3)) +
        temp_adjustment t + altitude_adjustment a) := by
  have hng : ¬ min_distance_gate d et := by
    rintro (⟨_, hlt⟩ | ⟨hm, _⟩)
    · linarith
    · exact mem_runTypes_not_cycle h₁ hm
  simp only [score_endurance_event, if_neg hng, if_pos h₁]

lemma score_cycle_eq (d e r dr t a : ℚ) (et : String)
    (h₁ : et ∈ cycleTypes) (h₂ : 70.0 ≤ d) :
    score_endurance_event d e et r dr t a =
      roundTo2 (((d / 3.0) * (2.0 / 42.2) + (e / 4.0) / 400) * (1 + r) *
        (1.0 - (dr / 100 * 0.3)) + temp_adjustment t + altitude_adjustment a) := by
  have hng : ¬ min_distance_gate d et := by
    rintro (⟨hm, _⟩ | ⟨_, hlt⟩)
    · exact mem_cycleTypes_not_run h₁ hm
    · linarith
  simp only [score_endurance_event, if_neg hng, if_neg (mem_cycleTypes_not_run h₁)]

lemma score_other_eq (d e r dr t a : ℚ) (et : String)
    (h₁ : et ∉ runTypes) (h₂ : et ∉ cycleTypes) :
    score_endurance_event d e et r dr t a =
      roundTo2 (((d / 3.0) * (2.0 / 42.2) + (e / 4.0) / 400) * (1 + r) *
        (1.0 - (dr / 100 * 0.3)) + temp_adjustment t + altitude_adjustment a) := by
  have hng : ¬ min_distance_gate d et := by
    rintro (⟨hm, _⟩ | ⟨hm, _⟩)
    · exact h₁ hm
    · exact h₂ hm
  simp only [score_endurance_event, if_neg hng, if_neg h₁]

lemma roundTo2_mono {x y : ℚ} (h : x ≤ y) : roundTo2 x ≤ roundTo2 y := by
  unfold roundTo2
  have hr : round (x * 100) ≤ round (y * 100) := by
    rw [round_eq, round_eq]
    exact Int.floor_mono (by linarith)
  have hr' : ((round (x * 100) : ℤ) : ℚ) ≤ ((round (y * 100) : ℤ) : ℚ) := by
    exact_mod_cast hr
  linarith

lemma temp_adjustment_mono {t₁ t₂ : ℚ} (h : t₁ ≤ t₂) :
    temp_adjustment t₁ ≤ temp_adjustment t₂ := by
  unfold temp_adjustment
  split_ifs <;> linarith

lemma temp_adjustment_eq_zero {t : ℚ} (h₁ : 10 ≤ t) (h₂ : t ≤ 20) :
    temp_adjustment t = 0 := by
  unfold temp_adjustment
  split_ifs with ha
  · have h10 : t = 10 := le_antisymm ha h₁
    subst h10; norm_num
  · rfl

lemma roundTo2_int_div (n : ℤ) : roundTo2 ((n : ℚ) / 100) = (n : ℚ) / 100 := by
  unfold roundTo2
  have h : ((n : ℚ) / 100) * 100 = (n : ℚ) := by field_simp
  rw [h, round_intCast]

lemma roundTo2_idem (x : ℚ) : roundTo2 (roundTo2 x) = roundTo2 x :=
  roundTo2_int_div (round (x * 100))

lemma roundTo2_eq_int_mul (x : ℚ) :
    ∃ n : ℤ, roundTo2 x = (n : ℚ) * 0.01 :=
  ⟨round (x * 100), by unfold roundTo2; norm_num; ring⟩

/-! ## Claims -/

/-- Claim C1: for the five enum event types, once the minimum-distance gate
passes, the score is `round` to 2 decimals of
`base * (1 + roughness) * (1.0 - draft_percentage/100 * 0.3)
+ temp_adjustment + altitude_adjustment`, where the base is
`distance_km * (2.0/42.2) + elevation_meters/400` for run/trail_run and
`(distance_km/3.0) * (2.0/42.2) + (elevation_meters/4.0)/400` for
road_cycle/gravel/mtb; the temperature and altitude adjustments are added
after the terrain and draft multiplications and are not scaled by them. -/
theorem C1_score_formula (d e r dr t a : ℚ) (et : String)
    (h : (et ∈ runTypes ∧ 21.2 ≤ d) ∨ (et ∈ cycleTypes ∧ 70.0 ≤ d)) :
    score_endurance_event d e et r dr t a =
      roundTo2 ((if et ∈ runTypes then d * (2.0 / 42.2) + e / 400
          else (d / 3.0) * (2.0 / 42.2) + (e / 4.0) / 400) * (1 + r) *
        (1.0 - (dr / 100 * 0.3)) + temp_adjustment t + altitude_adjustment a) := by
  rcases h with ⟨h₁, h₂⟩ | ⟨h₁, h₂⟩
  · rw [score_run_eq d e r dr t a et h₁ h₂, if_pos h₁]
  · rw [score_cycle_eq d e r dr t a et h₁ h₂, if_neg (mem_cycleTypes_not_run h₁)]

/-- Witness for C1 at a flat marathon: the formula evaluates to 2. -/
theorem C1_score_formula_witness :
    score_endurance_event 42.2 0 "run" 0 0 20 0 = 2 :=
  (C1_score_formula 42.2 0 0 0 20 0 "run" (Or.inl ⟨by decide, by norm_num⟩)).trans
    (by norm_num +decide [runTypes, temp_adjustment, altitude_adjustment,
      roundTo2, round_eq])

/-- Claim C2: the early 0.0 return fires exactly on the minimum-distance gate:
run/trail_run with distance below 21.2, or road_cycle/gravel/mtb with distance
below 70.0; a gated call returns 0.0 bypassing the scoring arithmetic, and at
the cycling boundary `score_endurance_event 70.0 0 "road_cycle"` (default
remaining arguments) is non-zero while `score_endurance_event 69.9 0
"road_cycle"` returns 0.0 — the gate boundary is exactly 70.0, not 80.0. -/
theorem C2_min_distance_gate :
    (∀ (d : ℚ) (et : String),
      (min_distance_gate d et ↔
        ((et = "run" ∨ et = "trail_run") ∧ d < 21.2) ∨
        ((et = "road_cycle" ∨ et = "gravel" ∨ et = "mtb") ∧ d < 70.0)) ∧
      ∀ e r dr t a : ℚ, min_distance_gate d et →
        score_endurance_event d e et r dr t a = 0.0) ∧
    score_endurance_event 70.0 0 "road_cycle" ≠ 0.0 ∧
    score_endurance_event 69.9 0 "road_cycle" = 0.0 := by
  refine ⟨fun d et => ⟨?_, fun e r dr t a h => score_gate_eq d e r dr t a et h⟩,
    ?_, ?_⟩
  · unfold min_distance_gate runTypes cycleTypes
    simp [List.mem_cons]
  · have h111 : score_endurance_event 70.0 0 "road_cycle" = 1.11 := by
      norm_num +decide [score_endurance_event, min_distance_gate, runTypes,
        cycleTypes, temp_adjustment, altitude_adjustment, roundTo2, round_eq]
    rw [h111]; norm_num
  · norm_num +decide [score_endurance_event, min_distance_gate, runTypes,
      cycleTypes]

/-- Witness for C2: a 20 km run is gated to 0.0 through the gate predicate. -/
theorem C2_min_distance_gate_witness :
    score_endurance_event 20.0 0 "run" 0 0 20 0 = 0.0 :=
  (C2_min_distance_gate.1 20.0 "run").2 0 0 0 20 0
    ((C2_min_distance_gate.1 20.0 "run").1.mpr (Or.inl ⟨Or.inl rfl, by norm_num⟩))

/-- Claim C3: a flat marathon scores exactly 2.0 for every temperature in
[10, 20], in particular at the default temperature 20.0. -/
theorem C3_flat_marathon (t : ℚ) (h₁ : 10 ≤ t) (h₂ : t ≤ 20) :
    score_endurance_event 42.2 0 "run" 0.0 0.0 t 0.0 = 2.0 := by
  rw [score_run_eq 42.2 0 0.0 0.0 t 0.0 "run" (by decide) (by norm_num),
    temp_adjustment_eq_zero h₁ h₂]
  norm_num [altitude_adjustment, roundTo2, round_eq]

/-- Witness for C3 at the default temperature 20.0. -/
theorem C3_flat_marathon_witness :
    score_endurance_event 42.2 0 "run" 0.0 0.0 20.0 0.0 = 2.0 :=
  C3_flat_marathon 20.0 (by norm_num) (by norm_num)

/-- Claim C4: the temperature adjustment is exactly the piecewise function
`(t - 10) * 0.05` (≤ 0) for `t ≤ 10`, `0` for `10 < t ≤ 20`, and
`(t - 20) * 0.1` (> 0) for `t > 20`; at the boundary `t = 10` it is 0, so
the two branch conventions agree there. -/
theorem C4_temp_adjustment (t : ℚ) :
    (t ≤ 10 → temp_adjustment t = (t - 10) * 0.05 ∧ temp_adjustment t ≤ 0) ∧
    (10 < t → t ≤ 20 → temp_adjustment t = 0) ∧
    (20 < t → temp_adjustment t = (t - 20) * 0.1 ∧ 0 < temp_adjustment t) ∧
    temp_adjustment 10 = 0 := by
  refine ⟨fun h => ⟨?_, ?_⟩, fun h₁ h₂ => ?_, fun h => ⟨?_, ?_⟩, ?_⟩ <;>
    unfold temp_adjustment <;> split_ifs <;>
    first
      | rfl
      | linarith

/-- Witness for C4: each temperature branch evaluated at a concrete point. -/
theorem C4_temp_adjustment_witness :
    (temp_adjustment 5 = (5 - 10) * 0.05 ∧ temp_adjustment 5 ≤ 0) ∧
    temp_adjustment 15 = 0 ∧
    (temp_adjustment 30 = (30 - 20) * 0.1 ∧ 0 < temp_adjustment 30) :=
  ⟨(C4_temp_adjustment 5).1 (by norm_num),
   (C4_temp_adjustment 15).2.1 (by norm_num) (by norm_num),
   (C4_temp_adjustment 30).2.2.1 (by norm_num)⟩

/-- Claim C5: the altitude adjustment is `(a/1000) * 0.8` for `a < 500` and
exactly 0 for `a ≥ 500`; the adjustment is positive at 499 and zero at 500
(a discontinuous step-down), visible in the score of a flat marathon: 2.4 at
altitude 499 versus 2.0 at altitude 500. -/
theorem C5_altitude_adjustment (a : ℚ) :
    (a < 500 → altitude_adjustment a = (a / 1000) * 0.8) ∧
    (500 ≤ a → altitude_adjustment a = 0) ∧
    0 < altitude_adjustment 499 ∧ altitude_adjustment 500 = 0 ∧
    score_endurance_event 42.2 0 "run" 0.0 0.0 20.0 499 = 2.4 ∧
    score_endurance_event 42.2 0 "run" 0.0 0.0 20.0 500 = 2.0 := by
  refine ⟨fun h => ?_, fun h => ?_, ?_, ?_, ?_, ?_⟩
  · unfold altitude_adjustment; rw [if_pos h]
  · unfold altitude_adjustment; rw [if_neg (by linarith)]
  · norm_num [altitude_adjustment]
  · norm_num [altitude_adjustment]
  · norm_num +decide [score_endurance_event, min_distance_gate, runTypes,
      cycleTypes, temp_adjustment, altitude_adjustment, roundTo2, round_eq]
  · norm_num +decide [score_endurance_event, min_distance_gate, runTypes,
      cycleTypes, temp_adjustment, altitude_adjustment, roundTo2, round_eq]

/-- Witness for C5: both altitude branches evaluated at a concrete point. -/
theorem C5_altitude_adjustment_witness :
    altitude_adjustment 250 = (250 / 1000) * 0.8 ∧ altitude_adjustment 1000 = 0 :=
  ⟨(C5_altitude_adjustment 250).1 (by norm_num),
   (C5_altitude_adjustment 1000).2.1 (by norm_num)⟩

/-- Claim C6: for fixed values of all other arguments (any event_type), the
score is monotone non-decreasing in the temperature — non-increasing as the
temperature decreases below 10 °C and non-decreasing as it increases above
20 °C — and it is constant for temperatures in the range [10, 20]. -/
theorem C6_temp_monotone (d e : ℚ) (et : String) (r dr a : ℚ) :
    (∀ t₁ t₂ : ℚ, t₁ ≤ t₂ →
      score_endurance_event d e et r dr t₁ a ≤
        score_endurance_event d e et r dr t₂ a) ∧
    (∀ t₁ t₂ : ℚ, 10 ≤ t₁ → t₁ ≤ 20 → 10 ≤ t₂ → t₂ ≤ 20 →
      score_endurance_event d e et r dr t₁ a =
        score_endurance_event d e et r dr t₂ a) := by
  constructor
  · intro t₁ t₂ h
    simp only [score_endurance_event]
    split_ifs
    · exact le_refl _
    all_goals exact roundTo2_mono (by linarith [temp_adjustment_mono h])
  · intro t₁ t₂ h₁ h₂ h₃ h₄
    simp only [score_endurance_event]
    split_ifs
    · rfl
    all_goals rw [temp_adjustment_eq_zero h₁ h₂, temp_adjustment_eq_zero h₃ h₄]

/-- Witness for C6: a run at -5 °C scores no more than the same run at
25 °C, and the score at 12 °C equals the score at 18 °C. -/
theorem C6_temp_monotone_witness :
    (score_endurance_event 42.2 0 "run" 0 0 (-5) 0 ≤
      score_endurance_event 42.2 0 "run" 0 0 25 0) ∧
    score_endurance_event 42.2 0 "run" 0 0 12 0 =
      score_endurance_event 42.2 0 "run" 0 0 18 0 :=
  ⟨(C6_temp_monotone 42.2 0 "run" 0 0 0).1 (-5) 25 (by norm_num),
   (C6_temp_monotone 42.2 0 "run" 0 0 0).2 12 18 (by norm_num) (by norm_num)
     (by norm_num) (by norm_num)⟩

/-- Claim C7: for every input within the UI-enforced ranges, the returned
value is already rounded to exactly 2 decimal places — it equals its own
rounding to 2 decimals and is an integer multiple of 0.01 in exact
arithmetic, including the 0.0 returned for gated events. -/
theorem C7_rounded_output (d e r dr t a : ℚ) (et : String)
    (hd : 0 ≤ d) (he : 0 ≤ e) (hr : 0 ≤ r ∧ r ≤ 1) (hdr : 0 ≤ dr ∧ dr ≤ 100)
    (ht : -20 ≤ t ∧ t ≤ 50) (ha : 0 ≤ a ∧ a ≤ 5000) (het : et ∈ eventTypes) :
    roundTo2 (score_endurance_event d e et r dr t a) =
      score_endurance_event d e et r dr t a ∧
    ∃ n : ℤ, score_endurance_event d e et r dr t a = (n : ℚ) * 0.01 := by
  simp only [score_endurance_event]
  split_ifs
  · exact ⟨by norm_num [roundTo2, round_eq], 0, by norm_num⟩
  all_goals exact ⟨roundTo2_idem _, roundTo2_eq_int_mul _⟩

/-- Witness for C7 at a flat marathon within all UI ranges. -/
theorem C7_rounded_output_witness :
    roundTo2 (score_endurance_event 42.2 0 "run" 0 0 20 0) =
      score_endurance_event 42.2 0 "run" 0 0 20 0 ∧
    ∃ n : ℤ, score_endurance_event 42.2 0 "run" 0 0 20 0 = (n : ℚ) * 0.01 :=
  C7_rounded_output 42.2 0 0 0 20 0 "run" (by norm_num) (by norm_num)
    ⟨by norm_num, by norm_num⟩ ⟨by norm_num, by norm_num⟩
    ⟨by norm_num, by norm_num⟩ ⟨by norm_num, by norm_num⟩ (by decide)

/-- Claim C8: for an event_type outside the five enum values no failure
occurs; the minimum-distance gate is skipped entirely (no condition on the
distance) and the score uses the cycling divisors 3.0 and 4.0. -/
theorem C8_unknown_event_type (d e r dr t a : ℚ) (et : String)
    (h : et ∉ eventTypes) :
    score_endurance_event d e et r dr t a =
      roundTo2 (((d / 3.0) * (2.0 / 42.2) + (e / 4.0) / 400) * (1 + r) *
        (1.0 - (dr / 100 * 0.3)) + temp_adjustment t + altitude_adjustment a) := by
  have h₁ : et ∉ runTypes := fun hm => h (by fin_cases hm <;> decide)
  have h₂ : et ∉ cycleTypes := fun hm => h (by fin_cases hm <;> decide)
  exact score_other_eq d e r dr t a et h₁ h₂

/-- Witness for C8: a 1 km "swim" is scored (no gate) as a cycling event. -/
theorem C8_unknown_event_type_witness :
    score_endurance_event 1 0 "swim" 0 0 20 0 = 0.02 :=
  (C8_unknown_event_type 1 0 0 0 20 0 "swim" (by decide)).trans
    (by norm_num [roundTo2, round_eq, temp_adjustment, altitude_adjustment])

/-- Claim C9: the score can be negative within the UI-enforced ranges: a
21.2 km flat run at -20 °C scores strictly below 0 (the exact value is
-0.5). -/
theorem C9_negative_score :
    score_endurance_event 21.2 0 "run" 0.0 0.0 (-20) 0.0 < 0 := by
  norm_num +decide [score_endurance_event, min_distance_gate, runTypes,
    cycleTypes, temp_adjustment, altitude_adjustment, roundTo2, round_eq]

/-- Claim C10: on every non-gated input, whatever the event_type (run and
trail_run included), the draft factor `1.0 - (draft_percentage/100 * 0.3)`
multiplies the terrain-adjusted base score; in particular at
draft_percentage = 100 the pre-adjustment score of any non-gated event —
running or cycling alike — is scaled by exactly 0.7. -/
theorem C10_draft_every_path :
    (∀ (d e r dr t a : ℚ) (et : String), ¬ min_distance_gate d et →
      score_endurance_event d e et r dr t a =
        roundTo2 ((if et ∈ runTypes then d * (2.0 / 42.2) + e / 400
            else (d / 3.0) * (2.0 / 42.2) + (e / 4.0) / 400) * (1 + r) *
          (1.0 - (dr / 100 * 0.3)) + temp_adjustment t +
          altitude_adjustment a)) ∧
    (∀ (d e r t a : ℚ) (et : String), ¬ min_distance_gate d et →
      score_endurance_event d e et r 100 t a =
        roundTo2 ((if et ∈ runTypes then d * (2.0 / 42.2) + e / 400
            else (d / 3.0) * (2.0 / 42.2) + (e / 4.0) / 400) * (1 + r) * 0.7 +
          temp_adjustment t + altitude_adjustment a)) := by
  have main : ∀ (d e r dr t a : ℚ) (et : String), ¬ min_distance_gate d et →
      score_endurance_event d e et r dr t a =
        roundTo2 ((if et ∈ runTypes then d * (2.0 / 42.2) + e / 400
            else (d / 3.0) * (2.0 / 42.2) + (e / 4.0) / 400) * (1 + r) *
          (1.0 - (dr / 100 * 0.3)) + temp_adjustment t +
          altitude_adjustment a) := by
    intro d e r dr t a et h
    by_cases h₁ : et ∈ runTypes
    · have hd : 21.2 ≤ d := by
        by_contra hlt
        exact h (Or.inl ⟨h₁, by linarith⟩)
      rw [score_run_eq d e r dr t a et h₁ hd, if_pos h₁]
    · by_cases h₂ : et ∈ cycleTypes
      · have hd : 70.0 ≤ d := by
          by_contra hlt
          exact h (Or.inr ⟨h₂, by linarith⟩)
        rw [score_cycle_eq d e r dr t a et h₂ hd, if_neg h₁]
      · rw [score_other_eq d e r dr t a et h₁ h₂, if_neg h₁]
  refine ⟨main, fun d e r t a et h => (main d e r 100 t a et h).trans ?_⟩
  norm_num

/-- Witness for C10: a flat marathon at 60 % draft scores 2 × 0.82 = 1.64,
and fully drafted (100 %) it scores 2 × 0.7 = 1.4. -/
theorem C10_draft_every_path_witness :
    score_endurance_event 42.2 0 "run" 0 60 20 0 = 1.64 ∧
    score_endurance_event 42.2 0 "run" 0 100 20 0 = 1.4 :=
  ⟨(C10_draft_every_path.1 42.2 0 0 60 20 0 "run"
      (by norm_num +decide [min_distance_gate, runTypes, cycleTypes])).trans
    (by norm_num +decide [runTypes, roundTo2, round_eq, temp_adjustment,
      altitude_adjustment]),
   (C10_draft_every_path.2 42.2 0 0 20 0 "run"
      (by norm_num +decide [min_distance_gate, runTypes, cycleTypes])).trans
    (by norm_num +decide [runTypes, roundTo2, round_eq, temp_adjustment,
      altitude_adjustment])⟩

end GritCalc
